import Mathlib

/-!
Verification of the Drishti-Agent incident dispatch workflow.

Shallow embedding of the two Cloud Functions of the repository:

* `autoDispatch` (cloud_functions/functions/autoDispatch.js): given an
  incident id, select the first available responder, notify it and mark
  both records; failures are reflected back into the incident record.
* `onNewIncident` (cloud_functions/functions/onNewIncident.js): the
  analysis workflow that records vision insights and a generated summary
  on the incident.

External state (the Firestore document collections) is modelled as
association lists keyed by document id.  Every external call (document
reads, document updates, the FCM send, the Gemini fetch) may throw in the
JavaScript source; this is modelled by an environment record whose fields
say, for each call site, whether the awaited call rejects and with which
error message.  The interpreter threads the store state, records the
performed side effects in order, and reports the outcome of the
invocation.
-/

/-- A latitude/longitude pair, as stored on incident and responder
documents. -/
structure Location where
  latitude : Int
  longitude : Int
deriving DecidableEq

/-- An incident document.  Field names follow the Firestore fields touched
by the two Cloud Functions; `Option` marks fields that may be absent.
The `serverTimestamp` sentinels (`dispatchedAt`, `dispatchAttemptedAt`,
`analyzedAt`) are modelled as `Option Unit`: only their presence is
observable here. -/
structure Incident where
  status : String
  anomalyType : String
  location : Location
  videoUrl : String
  dispatchedTo : Option String := none
  routeDuration : Option String := none
  dispatchedAt : Option Unit := none
  dispatchAttemptedAt : Option Unit := none
  dispatchMessage : Option String := none
  dispatchErrorMessage : Option String := none
  visionInsights : Option (List String) := none
  geminiSummary : Option String := none
  processingTimeMs : Option Nat := none
  analyzedAt : Option Unit := none
  errorMessage : Option String := none
deriving DecidableEq

/-- A responder document, with the fields read and written by
`autoDispatch`. -/
structure Responder where
  status : String
  location : Location
  fcmToken : Option String := none
  currentIncidentId : Option String := none
deriving DecidableEq

/-- A document collection: an association list from document id to
document data. -/
abbrev Store (α : Type) : Type := List (String × α)

/-- Firestore doc(id).get(): the document with the given id, if any. -/
def getDoc {α : Type} (store : Store α) (id : String) : Option α :=
  match store with
  | [] => none
  | (k, w) :: rest => if k == id then some w else getDoc rest id

/-- Firestore doc(id).update(...): replace the data of the document with
the given id (the call sites below only use it on existing documents). -/
def setDoc {α : Type} (store : Store α) (id : String) (v : α) : Store α :=
  match store with
  | [] => []
  | (k, w) :: rest =>
    if k == id then (id, v) :: setDoc rest id v else (k, w) :: setDoc rest id v

/-- The whole external state seen by `autoDispatch`: the `incidents` and
`responders` collections. -/
structure WorldState where
  incidents : Store Incident
  responders : Store Responder
deriving DecidableEq

/-- One observable side effect of an invocation, in execution order. -/
inductive Effect where
  | incidentWrite (id : String)
  | responderWrite (id : String)
  | notify (token : String) (responderId : String) (incidentId : String)
deriving DecidableEq

/-- Whether and how each awaited external call of `autoDispatch` rejects:
`some m` means the call throws an error whose `message` is `m`, `none`
means it succeeds.  One field per call site of the source. -/
structure DispatchEnv where
  getErr : Option String := none
  queryErr : Option String := none
  pendingUpdateErr : Option String := none
  sendErr : Option String := none
  incUpdateErr : Option String := none
  respUpdateErr : Option String := none
  failUpdateErr : Option String := none
deriving DecidableEq

/-- All external calls of `autoDispatch` succeed. -/
def DispatchEnv.faultFree (env : DispatchEnv) : Prop :=
  env.getErr = none ∧ env.queryErr = none ∧ env.pendingUpdateErr = none ∧
  env.sendErr = none ∧ env.incUpdateErr = none ∧ env.respUpdateErr = none ∧
  env.failUpdateErr = none

instance (env : DispatchEnv) : Decidable env.faultFree := by
  unfold DispatchEnv.faultFree; infer_instance

/-- How an invocation of `autoDispatch` ends. -/
inductive DispatchOutcome where
  /-- No `incidentId` in the trigger payload: logged and skipped. -/
  | skippedNoId
  /-- The incident document does not exist: logged, `return null`. -/
  | notFound
  /-- The incident is already `dispatched` or `resolved`: `return null`. -/
  | alreadyHandled (status : String)
  /-- No available responder: recorded as `pending_dispatch`. -/
  | noResponders
  /-- Successful dispatch to the given responder. -/
  | dispatched (responderId : String)
  /-- A call threw; the catch block recorded `dispatch_failed`. -/
  | failed (msg : String)
  /-- A call threw and the catch block update itself threw: the rejection
  escapes to the Functions runtime. -/
  | uncaught (msg : String)
deriving DecidableEq

/-- Is the outcome an error outcome (an exception reached the catch block
or escaped)? -/
def DispatchOutcome.isError : DispatchOutcome → Bool
  | .failed _ => true
  | .uncaught _ => true
  | _ => false

/-- The result of one invocation: the final store state, the side effects
performed in order, and the outcome. -/
structure DispatchResult where
  state : WorldState
  effects : List Effect
  outcome : DispatchOutcome
deriving DecidableEq

/-- The `limit(1)` query `responders.where('status' == 'available')`: the
first responder document whose `status` is `available`, if any. -/
def queryAvailableLimit1 (rs : Store Responder) :
    Option (String × Responder) :=
  (rs : List (String × Responder)).find? (fun p => p.2.status == "available")

/-- The stubbed route duration of the source (the Google Maps call is
commented out). -/
def simulatedRouteDuration : String := "5 minutes (simulated)"

/-- The catch block of `autoDispatch`: write `status = dispatch_failed`
and the error message onto the incident.  If that update itself rejects
(or the incident document is missing, on which Firestore `update` throws),
the rejection escapes. -/
def handleDispatchError (env : DispatchEnv) (s : WorldState)
    (effs : List Effect) (incidentId : String) (msg : String) :
    DispatchResult :=
  match env.failUpdateErr with
  | some m => ⟨s, effs, DispatchOutcome.uncaught m⟩
  | none =>
    match getDoc s.incidents incidentId with
    | none => ⟨s, effs, DispatchOutcome.uncaught "no document to update"⟩
    | some inc =>
      let inc2 : Incident :=
        { inc with status := "dispatch_failed",
                   dispatchErrorMessage := some msg,
                   dispatchAttemptedAt := some () }
      ⟨{ s with incidents := setDoc s.incidents incidentId inc2 },
       effs ++ [Effect.incidentWrite incidentId],
       DispatchOutcome.failed msg⟩

/-- The tail of the success path: the incident update to `dispatched`
followed by the responder update to `en_route` (two separate awaited
calls in the source, each of which may reject into the catch block). -/
def finishDispatch (env : DispatchEnv) (s : WorldState) (incidentId : String)
    (incidentData : Incident) (responderId : String)
    (responderData : Responder) (notifyEffs : List Effect) : DispatchResult :=
  match env.incUpdateErr with
  | some m => handleDispatchError env s notifyEffs incidentId m
  | none =>
    let inc2 : Incident :=
      { incidentData with status := "dispatched",
                          dispatchedTo := some responderId,
                          routeDuration := some simulatedRouteDuration,
                          dispatchedAt := some () }
    let s1 : WorldState := { s with incidents := setDoc s.incidents incidentId inc2 }
    let effs1 : List Effect := notifyEffs ++ [Effect.incidentWrite incidentId]
    match env.respUpdateErr with
    | some m => handleDispatchError env s1 effs1 incidentId m
    | none =>
      let resp2 : Responder :=
        { responderData with status := "en_route",
                             currentIncidentId := some incidentId }
      ⟨{ s1 with responders := setDoc s1.responders responderId resp2 },
       effs1 ++ [Effect.responderWrite responderId],
       DispatchOutcome.dispatched responderId⟩

/-- The `autoDispatch` Cloud Function body
(cloud_functions/functions/autoDispatch.js), with `incidentId` the
(possibly absent) `incidentId` field of the Pub/Sub payload. -/
def autoDispatch (env : DispatchEnv) (s : WorldState)
    (incidentId : Option String) : DispatchResult :=
  match incidentId with
  | none => ⟨s, [], DispatchOutcome.skippedNoId⟩
  | some incidentId =>
    match env.getErr with
    | some m => handleDispatchError env s [] incidentId m
    | none =>
      match getDoc s.incidents incidentId with
      | none => ⟨s, [], DispatchOutcome.notFound⟩
      | some incidentData =>
        if incidentData.status == "dispatched" ||
            incidentData.status == "resolved" then
          ⟨s, [], DispatchOutcome.alreadyHandled incidentData.status⟩
        else
          match env.queryErr with
          | some m => handleDispatchError env s [] incidentId m
          | none =>
            match queryAvailableLimit1 s.responders with
            | none =>
              match env.pendingUpdateErr with
              | some m => handleDispatchError env s [] incidentId m
              | none =>
                let inc2 : Incident :=
                  { incidentData with
                      status := "pending_dispatch",
                      dispatchAttemptedAt := some (),
                      dispatchMessage := some "No available responders." }
                ⟨{ s with incidents := setDoc s.incidents incidentId inc2 },
                 [Effect.incidentWrite incidentId],
                 DispatchOutcome.noResponders⟩
            | some (responderId, responderData) =>
              match responderData.fcmToken with
              | some token =>
                match env.sendErr with
                | some m => handleDispatchError env s [] incidentId m
                | none =>
                  finishDispatch env s incidentId incidentData responderId
                    responderData [Effect.notify token responderId incidentId]
              | none =>
                finishDispatch env s incidentId incidentData responderId
                  responderData []

/-- Whether and how each awaited external call of `onNewIncident` rejects,
plus the data the environment supplies: `geminiText` is `some t` when the
Gemini response has the expected `candidates[0].content.parts[0].text`
structure (with text `t`), `none` when the structure is unexpected or
empty; `elapsedMs` is the wall-clock duration measured by the function. -/
structure AnalysisEnv where
  fetchErr : Option String := none
  geminiText : Option String := none
  updateErr : Option String := none
  failUpdateErr : Option String := none
  elapsedMs : Nat := 0
deriving DecidableEq

/-- The Pub/Sub payload of the `anomaly-triggers` topic. -/
structure IncidentMessage where
  incidentId : String
  videoUrl : String
  anomalyType : String
  deviceId : String
  location : Location
deriving DecidableEq

/-- How an invocation of `onNewIncident` ends. -/
inductive AnalysisOutcome where
  /-- Analysis results recorded, `status = analyzed`. -/
  | analyzed
  /-- A call threw; the catch block recorded `analysis_failed`. -/
  | failed (msg : String)
  /-- A call threw and the catch block update itself threw. -/
  | uncaught (msg : String)
deriving DecidableEq

/-- The result of one `onNewIncident` invocation. -/
structure AnalysisResult where
  incidents : Store Incident
  outcome : AnalysisOutcome
deriving DecidableEq

/-- The simulated Vertex AI Vision insights of the source. -/
def visionInsightsFor (anomalyType : String) : List String :=
  ["Detailed analysis of " ++ anomalyType ++ " confirmed.",
   "Crowd movement patterns analyzed."]

/-- The fallback summary used when the Gemini response structure is
unexpected or empty. -/
def geminiFallbackSummary : String :=
  "AI analysis inconclusive or response format error."

/-- The catch block of `onNewIncident`: write `status = analysis_failed`
and the error message onto the incident; if that update itself rejects (or
the document is missing), the rejection escapes. -/
def handleAnalysisError (env : AnalysisEnv) (incs : Store Incident)
    (incidentId : String) (msg : String) : AnalysisResult :=
  match env.failUpdateErr with
  | some m => ⟨incs, AnalysisOutcome.uncaught m⟩
  | none =>
    match getDoc incs incidentId with
    | none => ⟨incs, AnalysisOutcome.uncaught "no document to update"⟩
    | some inc =>
      let inc2 : Incident :=
        { inc with status := "analysis_failed",
                   errorMessage := some msg,
                   analyzedAt := some () }
      ⟨setDoc incs incidentId inc2, AnalysisOutcome.failed msg⟩

/-- The `onNewIncident` Cloud Function body
(cloud_functions/functions/onNewIncident.js): simulated vision insights,
the Gemini fetch, and the result update on the incident, all inside a
single try/catch. -/
def onNewIncident (env : AnalysisEnv) (incs : Store Incident)
    (msg : IncidentMessage) : AnalysisResult :=
  let visionInsights := visionInsightsFor msg.anomalyType
  match env.fetchErr with
  | some m => handleAnalysisError env incs msg.incidentId m
  | none =>
    let geminiSummary :=
      match env.geminiText with
      | some t => t
      | none => geminiFallbackSummary
    match env.updateErr with
    | some m => handleAnalysisError env incs msg.incidentId m
    | none =>
      match getDoc incs msg.incidentId with
      | none =>
        handleAnalysisError env incs msg.incidentId "no document to update"
      | some inc =>
        let inc2 : Incident :=
          { inc with status := "analyzed",
                     visionInsights := some visionInsights,
                     geminiSummary := some geminiSummary,
                     processingTimeMs := some env.elapsedMs,
                     analyzedAt := some () }
        ⟨setDoc incs msg.incidentId inc2, AnalysisOutcome.analyzed⟩

/-- Is the effect a write to the incident collection? -/
def Effect.isIncidentWrite : Effect → Bool
  | .incidentWrite _ => true
  | _ => false

/-- Is the effect a write to the responder collection? -/
def Effect.isResponderWrite : Effect → Bool
  | .responderWrite _ => true
  | _ => false

/-- Is the effect an outbound FCM notification? -/
def Effect.isNotify : Effect → Bool
  | .notify _ _ _ => true
  | _ => false

/-- Number of incident document writes in an effect trace. -/
def incidentWrites (effs : List Effect) : Nat :=
  effs.countP Effect.isIncidentWrite

/-- Number of responder document writes in an effect trace. -/
def responderWrites (effs : List Effect) : Nat :=
  effs.countP Effect.isResponderWrite

/-- Number of outbound notifications in an effect trace. -/
def notifications (effs : List Effect) : Nat :=
  effs.countP Effect.isNotify

/-- The responder-registry invariant of the spec: a responder with
`status = available` has no `currentIncidentId`. -/
def responderInvariant (r : Responder) : Prop :=
  r.status = "available" → r.currentIncidentId = none

instance (r : Responder) : Decidable (responderInvariant r) := by
  unfold responderInvariant; infer_instance

/-! ## Store lemmas -/

theorem getDoc_setDoc_self {α : Type} (store : Store α) (id : String)
    (v x : α) (h : getDoc store id = some x) :
    getDoc (setDoc store id v) id = some v := by
  induction store with
  | nil => simp [getDoc] at h
  | cons p rest ih =>
    obtain ⟨k, w⟩ := p
    by_cases hk : k = id
    · simp [getDoc, setDoc, hk]
    · simp only [getDoc, setDoc, hk, if_false, beq_iff_eq] at h ⊢
      exact ih h

theorem getDoc_setDoc_ne {α : Type} (store : Store α) (id id2 : String)
    (v : α) (h : id2 ≠ id) :
    getDoc (setDoc store id v) id2 = getDoc store id2 := by
  induction store with
  | nil => simp [getDoc, setDoc]
  | cons p rest ih =>
    obtain ⟨k, w⟩ := p
    by_cases hk : k = id
    · simp [getDoc, setDoc, hk, Ne.symm h, ih]
    · simp [getDoc, setDoc, hk, ih]

theorem mem_setDoc {α : Type} (store : Store α) (id : String) (v : α)
    (p : String × α) (hp : p ∈ setDoc store id v) :
    p = (id, v) ∨ p ∈ store := by
  induction store with
  | nil => simp [setDoc] at hp
  | cons q rest ih =>
    obtain ⟨k, w⟩ := q
    by_cases hk : k = id
    · simp only [setDoc, hk, if_true, beq_self_eq_true, List.mem_cons] at hp
      rcases hp with hp | hp
      · exact Or.inl hp
      · rcases ih hp with hl | hr
        · exact Or.inl hl
        · exact Or.inr (List.mem_cons_of_mem _ hr)
    · simp only [setDoc, hk, if_false, beq_iff_eq, List.mem_cons] at hp
      rcases hp with hp | hp
      · exact Or.inr (by simp [hp])
      · rcases ih hp with hl | hr
        · exact Or.inl hl
        · exact Or.inr (List.mem_cons_of_mem _ hr)

/-! ## Branch lemmas -/

theorem handleDispatchError_responders (env : DispatchEnv) (s : WorldState)
    (effs : List Effect) (incidentId msg : String) :
    (handleDispatchError env s effs incidentId msg).state.responders =
      s.responders := by
  unfold handleDispatchError
  split
  · rfl
  · split <;> rfl

theorem handleDispatchError_effects (env : DispatchEnv) (s : WorldState)
    (effs : List Effect) (incidentId msg : String) :
    (handleDispatchError env s effs incidentId msg).effects = effs ∨
    (handleDispatchError env s effs incidentId msg).effects =
      effs ++ [Effect.incidentWrite incidentId] := by
  unfold handleDispatchError
  split
  · exact Or.inl rfl
  · split
    · exact Or.inl rfl
    · exact Or.inr rfl

theorem handleDispatchError_spec (env : DispatchEnv) (s : WorldState)
    (effs : List Effect) (incidentId msg : String) (inc : Incident)
    (hf : env.failUpdateErr = none)
    (hg : getDoc s.incidents incidentId = some inc) :
    (handleDispatchError env s effs incidentId msg).outcome =
      DispatchOutcome.failed msg ∧
    getDoc (handleDispatchError env s effs incidentId msg).state.incidents
        incidentId =
      some { inc with status := "dispatch_failed",
                      dispatchErrorMessage := some msg,
                      dispatchAttemptedAt := some () } := by
  unfold handleDispatchError
  rw [hf, hg]
  exact ⟨rfl, getDoc_setDoc_self s.incidents incidentId _ inc hg⟩

theorem getDoc_isSome_of_mem {α : Type} (store : Store α) (k : String)
    (w : α) (h : (k, w) ∈ store) : ∃ x, getDoc store k = some x := by
  induction store with
  | nil => simp at h
  | cons p rest ih =>
    obtain ⟨k2, w2⟩ := p
    by_cases hk : k2 = k
    · exact ⟨w2, by simp [getDoc, hk]⟩
    · have hmem : (k, w) ∈ rest := by
        rcases List.mem_cons.mp h with h1 | h1
        · cases h1
          exact absurd rfl hk
        · exact h1
      obtain ⟨x, hx⟩ := ih hmem
      exact ⟨x, by simp [getDoc, hk, hx]⟩

/-- The success path of `autoDispatch`, in full: with a fault-free
environment, an existing incident that is neither `dispatched` nor
`resolved`, and an available responder found by the `limit(1)` query, the
invocation dispatches to that responder, writes both records, notifies
exactly when the responder has an `fcmToken`, and touches no other
document. -/
theorem autoDispatch_success (env : DispatchEnv) (s : WorldState)
    (incidentId : String) (inc : Incident) (rid : String) (r : Responder)
    (hff : env.faultFree)
    (hg : getDoc s.incidents incidentId = some inc)
    (hs1 : inc.status ≠ "dispatched") (hs2 : inc.status ≠ "resolved")
    (hq : queryAvailableLimit1 s.responders = some (rid, r)) :
    (autoDispatch env s (some incidentId)).outcome =
      DispatchOutcome.dispatched rid ∧
    getDoc (autoDispatch env s (some incidentId)).state.incidents incidentId =
      some { inc with status := "dispatched",
                      dispatchedTo := some rid,
                      routeDuration := some simulatedRouteDuration,
                      dispatchedAt := some () } ∧
    getDoc (autoDispatch env s (some incidentId)).state.responders rid =
      some { r with status := "en_route",
                    currentIncidentId := some incidentId } ∧
    (autoDispatch env s (some incidentId)).effects =
      (match r.fcmToken with
       | some token => [Effect.notify token rid incidentId]
       | none => []) ++
        [Effect.incidentWrite incidentId, Effect.responderWrite rid] ∧
    (∀ rid2, rid2 ≠ rid →
      getDoc (autoDispatch env s (some incidentId)).state.responders rid2 =
        getDoc s.responders rid2) ∧
    (∀ iid2, iid2 ≠ incidentId →
      getDoc (autoDispatch env s (some incidentId)).state.incidents iid2 =
        getDoc s.incidents iid2) := by
  obtain ⟨he1, he2, he3, he4, he5, he6, he7⟩ := hff
  have hb1 : (inc.status == "dispatched") = false := by simp [hs1]
  have hb2 : (inc.status == "resolved") = false := by simp [hs2]
  have hrmem : (rid, r) ∈ s.responders := List.mem_of_find?_eq_some hq
  obtain ⟨r0, hr0⟩ := getDoc_isSome_of_mem s.responders rid r hrmem
  cases ht : r.fcmToken with
  | some token =>
    simp only [autoDispatch, he1, he2, he3, he4, he5, he6, hg, hb1, hb2,
      Bool.or_self, Bool.false_or, if_false, hq, ht, finishDispatch]
    refine ⟨rfl, ?_, ?_, rfl, ?_, ?_⟩
    · exact getDoc_setDoc_self s.incidents incidentId _ inc hg
    · exact getDoc_setDoc_self s.responders rid _ r0 hr0
    · intro rid2 h2
      exact getDoc_setDoc_ne s.responders rid rid2 _ h2
    · intro iid2 h2
      exact getDoc_setDoc_ne s.incidents incidentId iid2 _ h2
  | none =>
    simp only [autoDispatch, he1, he2, he3, he4, he5, he6, hg, hb1, hb2,
      Bool.or_self, Bool.false_or, if_false, hq, ht, finishDispatch,
      List.nil_append]
    refine ⟨rfl, ?_, ?_, rfl, ?_, ?_⟩
    · exact getDoc_setDoc_self s.incidents incidentId _ inc hg
    · exact getDoc_setDoc_self s.responders rid _ r0 hr0
    · intro rid2 h2
      exact getDoc_setDoc_ne s.responders rid rid2 _ h2
    · intro iid2 h2
      exact getDoc_setDoc_ne s.incidents incidentId iid2 _ h2

/-! ## Sample documents used by witnesses and counterexamples -/

/-- A fresh incident, not yet dispatched. -/
def pendingIncident : Incident :=
  { status := "pending", anomalyType := "fire",
    location := ⟨12, 77⟩, videoUrl := "gs://bucket/clip1" }

/-- An incident already resolved. -/
def resolvedIncident : Incident :=
  { pendingIncident with status := "resolved" }

/-- An incident already dispatched. -/
def dispatchedIncident : Incident :=
  { pendingIncident with status := "dispatched", dispatchedTo := some "R7" }

/-- An available responder carrying an FCM token. -/
def tokenResponder : Responder :=
  { status := "available", location := ⟨5, 6⟩, fcmToken := some "fcm-tok-1" }

/-- An available responder with no FCM token. -/
def noTokenResponder : Responder :=
  { status := "available", location := ⟨5, 6⟩ }

/-- A busy responder, already assigned elsewhere. -/
def busyResponder : Responder :=
  { status := "busy", location := ⟨9, 9⟩, fcmToken := some "fcm-tok-2",
    currentIncidentId := some "I9" }

/-- A world with one pending incident and one available (token-carrying)
responder. -/
def w1 : WorldState := ⟨[("I1", pendingIncident)], [("R1", tokenResponder)]⟩

/-- A world with one pending incident and one available responder that
has no FCM token. -/
def w0 : WorldState := ⟨[("I1", pendingIncident)], [("R1", noTokenResponder)]⟩

/-! ## Claim C2 -/

/-- Claim C2: for every incident whose status is already `dispatched` or
`resolved`, `autoDispatch` is a no-op — the stores are returned unchanged,
no effect (incident write, responder write or notification) is performed,
and the invocation just logs and returns — provided the initial incident
read succeeds (the status can only be consulted once it has been read). -/
theorem c2_already_handled_noop (env : DispatchEnv) (s : WorldState)
    (incidentId : String) (inc : Incident)
    (hread : env.getErr = none)
    (hg : getDoc s.incidents incidentId = some inc)
    (hst : inc.status = "dispatched" ∨ inc.status = "resolved") :
    autoDispatch env s (some incidentId) =
      ⟨s, [], DispatchOutcome.alreadyHandled inc.status⟩ := by
  have hb : (inc.status == "dispatched" || inc.status == "resolved") = true := by
    rcases hst with h | h <;> simp [h]
  simp [autoDispatch, hread, hg, hb]

/-- Witness for C2: a resolved incident is left untouched. -/
theorem c2_already_handled_noop_witness :
    autoDispatch {} ⟨[("I3", resolvedIncident)], [("R1", tokenResponder)]⟩
        (some "I3") =
      ⟨⟨[("I3", resolvedIncident)], [("R1", tokenResponder)]⟩, [],
       DispatchOutcome.alreadyHandled resolvedIncident.status⟩ :=
  c2_already_handled_noop {} ⟨[("I3", resolvedIncident)], [("R1", tokenResponder)]⟩
    "I3" resolvedIncident rfl rfl (Or.inr rfl)

/-! ## Claim C3 -/

/-- Claim C3: when the incident exists and is not already `dispatched` or
`resolved`, and no responder has status `available`, the invocation (all
its external calls succeeding) sets the incident status to
`pending_dispatch` with the diagnostic message, mutates no responder,
performs no responder write and sends no notification, and terminates
with a non-error outcome. -/
theorem c3_no_capacity (env : DispatchEnv) (s : WorldState)
    (incidentId : String) (inc : Incident)
    (hff : env.faultFree)
    (hg : getDoc s.incidents incidentId = some inc)
    (hs1 : inc.status ≠ "dispatched") (hs2 : inc.status ≠ "resolved")
    (hnone : ∀ p ∈ s.responders, p.2.status ≠ "available") :
    (autoDispatch env s (some incidentId)).outcome =
      DispatchOutcome.noResponders ∧
    DispatchOutcome.isError (autoDispatch env s (some incidentId)).outcome =
      false ∧
    getDoc (autoDispatch env s (some incidentId)).state.incidents incidentId =
      some { inc with status := "pending_dispatch",
                      dispatchAttemptedAt := some (),
                      dispatchMessage := some "No available responders." } ∧
    (autoDispatch env s (some incidentId)).state.responders = s.responders ∧
    responderWrites (autoDispatch env s (some incidentId)).effects = 0 ∧
    notifications (autoDispatch env s (some incidentId)).effects = 0 := by
  obtain ⟨he1, he2, he3, he4, he5, he6, he7⟩ := hff
  have hb1 : (inc.status == "dispatched") = false := by simp [hs1]
  have hb2 : (inc.status == "resolved") = false := by simp [hs2]
  have hq : queryAvailableLimit1 s.responders = none := by
    apply List.find?_eq_none.mpr
    intro p hp
    simp [hnone p hp]
  simp only [autoDispatch, he1, he2, he3, hg, hb1, hb2, Bool.or_self,
    Bool.false_or, if_false, hq]
  refine ⟨rfl, rfl, ?_, rfl, ?_, ?_⟩
  · exact getDoc_setDoc_self s.incidents incidentId _ inc hg
  · simp [responderWrites, List.countP_cons, Effect.isResponderWrite]
  · simp [notifications, List.countP_cons, Effect.isNotify]

/-- Witness for C3: one busy responder, a pending incident. -/
theorem c3_no_capacity_witness :
    (autoDispatch {} ⟨[("I1", pendingIncident)], [("R9", busyResponder)]⟩
        (some "I1")).outcome = DispatchOutcome.noResponders ∧
    getDoc (autoDispatch {} ⟨[("I1", pendingIncident)], [("R9", busyResponder)]⟩
        (some "I1")).state.incidents "I1" =
      some { pendingIncident with
               status := "pending_dispatch",
               dispatchAttemptedAt := some (),
               dispatchMessage := some "No available responders." } := by
  have h := c3_no_capacity {} ⟨[("I1", pendingIncident)], [("R9", busyResponder)]⟩
    "I1" pendingIncident (by decide) rfl (by decide) (by decide) (by decide)
  exact ⟨h.1, h.2.2.1⟩

/-! ## Claim C1 -/

/-- Claim C1 counterexample: all the claim's preconditions hold (the
incident exists and is neither `dispatched` nor `resolved`, a responder is
`available`, every external call succeeds), the dispatch completes, yet no
notification is sent — because the chosen responder has no `fcmToken`, the
source skips the FCM send entirely. -/
theorem c1_counterexample :
    ({} : DispatchEnv).faultFree ∧
    getDoc w0.incidents "I1" = some pendingIncident ∧
    pendingIncident.status ≠ "dispatched" ∧
    pendingIncident.status ≠ "resolved" ∧
    queryAvailableLimit1 w0.responders = some ("R1", noTokenResponder) ∧
    noTokenResponder.status = "available" ∧
    (autoDispatch {} w0 (some "I1")).outcome =
      DispatchOutcome.dispatched "R1" ∧
    notifications (autoDispatch {} w0 (some "I1")).effects = 0 := by
  decide

/-- Claim C1 (amended): with the incident existing and not already
`dispatched`/`resolved`, at least one available responder, and all
external calls succeeding, exactly one responder transitions from
`available` to `en_route` with `currentIncidentId` set to the incident id,
the incident transitions to `dispatched` with `dispatchedTo` equal to that
responder's id and the recorded simulated route duration — and exactly one
notification is sent to that responder's channel provided the responder
has a notification token (no notification is sent when the token is
missing). -/
theorem c1_dispatch_success (env : DispatchEnv) (s : WorldState)
    (incidentId : String) (inc : Incident) (rid : String) (r : Responder)
    (hff : env.faultFree)
    (hg : getDoc s.incidents incidentId = some inc)
    (hs1 : inc.status ≠ "dispatched") (hs2 : inc.status ≠ "resolved")
    (hq : queryAvailableLimit1 s.responders = some (rid, r)) :
    (autoDispatch env s (some incidentId)).outcome =
      DispatchOutcome.dispatched rid ∧
    getDoc (autoDispatch env s (some incidentId)).state.incidents incidentId =
      some { inc with status := "dispatched",
                      dispatchedTo := some rid,
                      routeDuration := some simulatedRouteDuration,
                      dispatchedAt := some () } ∧
    getDoc (autoDispatch env s (some incidentId)).state.responders rid =
      some { r with status := "en_route",
                    currentIncidentId := some incidentId } ∧
    incidentWrites (autoDispatch env s (some incidentId)).effects = 1 ∧
    responderWrites (autoDispatch env s (some incidentId)).effects = 1 ∧
    (∀ rid2, rid2 ≠ rid →
      getDoc (autoDispatch env s (some incidentId)).state.responders rid2 =
        getDoc s.responders rid2) ∧
    (∀ token, r.fcmToken = some token →
      (autoDispatch env s (some incidentId)).effects.count
          (Effect.notify token rid incidentId) = 1 ∧
      notifications (autoDispatch env s (some incidentId)).effects = 1) ∧
    (r.fcmToken = none →
      notifications (autoDispatch env s (some incidentId)).effects = 0) := by
  obtain ⟨ho, hi, hr, heff, hframe, -⟩ :=
    autoDispatch_success env s incidentId inc rid r hff hg hs1 hs2 hq
  refine ⟨ho, hi, hr, ?_, ?_, hframe, ?_, ?_⟩
  · rw [heff]
    cases r.fcmToken <;>
      simp [incidentWrites, List.countP_cons, Effect.isIncidentWrite]
  · rw [heff]
    cases r.fcmToken <;>
      simp [responderWrites, List.countP_cons, Effect.isResponderWrite]
  · intro token htok
    rw [heff, htok]
    constructor
    · simp [List.count_cons, List.count_nil]
    · simp [notifications, List.countP_cons, Effect.isNotify]
  · intro htok
    rw [heff, htok]
    simp [notifications, List.countP_cons, Effect.isNotify]

/-- Witness for C1 (amended): dispatching the pending incident of `w1` to
its token-carrying available responder sends exactly one notification to
that token. -/
theorem c1_dispatch_success_witness :
    (autoDispatch {} w1 (some "I1")).outcome =
      DispatchOutcome.dispatched "R1" ∧
    (autoDispatch {} w1 (some "I1")).effects.count
        (Effect.notify "fcm-tok-1" "R1" "I1") = 1 := by
  have h := c1_dispatch_success {} w1 "I1" pendingIncident "R1" tokenResponder
    (by decide) rfl (by decide) (by decide) rfl
  exact ⟨h.1, (h.2.2.2.2.2.2.1 "fcm-tok-1" rfl).1⟩

/-! ## Claim C10 -/

/-- Claim C10: if the selected available responder has no `fcmToken`, the
dispatch still completes without error — the incident is marked
`dispatched` with `dispatchedTo` set, the responder is marked `en_route`
with the matching `currentIncidentId`, no notification is sent, the
outcome is not an error, and no failure message is recorded on the
incident (its `dispatchErrorMessage` keeps its previous value). -/
theorem c10_no_token_dispatch (env : DispatchEnv) (s : WorldState)
    (incidentId : String) (inc : Incident) (rid : String) (r : Responder)
    (hff : env.faultFree)
    (hg : getDoc s.incidents incidentId = some inc)
    (hs1 : inc.status ≠ "dispatched") (hs2 : inc.status ≠ "resolved")
    (hq : queryAvailableLimit1 s.responders = some (rid, r))
    (htok : r.fcmToken = none) :
    (autoDispatch env s (some incidentId)).outcome =
      DispatchOutcome.dispatched rid ∧
    DispatchOutcome.isError (autoDispatch env s (some incidentId)).outcome =
      false ∧
    getDoc (autoDispatch env s (some incidentId)).state.incidents incidentId =
      some { inc with status := "dispatched",
                      dispatchedTo := some rid,
                      routeDuration := some simulatedRouteDuration,
                      dispatchedAt := some () } ∧
    getDoc (autoDispatch env s (some incidentId)).state.responders rid =
      some { r with status := "en_route",
                    currentIncidentId := some incidentId } ∧
    notifications (autoDispatch env s (some incidentId)).effects = 0 ∧
    (getDoc (autoDispatch env s (some incidentId)).state.incidents
        incidentId).map Incident.dispatchErrorMessage =
      some inc.dispatchErrorMessage := by
  obtain ⟨ho, hi, hr, heff, -, -⟩ :=
    autoDispatch_success env s incidentId inc rid r hff hg hs1 hs2 hq
  refine ⟨ho, ?_, hi, hr, ?_, ?_⟩
  · rw [ho]
    rfl
  · rw [heff, htok]
    simp [notifications, List.countP_cons, Effect.isNotify]
  · rw [hi]
    rfl

/-- Witness for C10: the `w0` responder has no token; the dispatch still
goes through and sends nothing. -/
theorem c10_no_token_dispatch_witness :
    (autoDispatch {} w0 (some "I1")).outcome =
      DispatchOutcome.dispatched "R1" ∧
    notifications (autoDispatch {} w0 (some "I1")).effects = 0 := by
  have h := c10_no_token_dispatch {} w0 "I1" pendingIncident "R1"
    noTokenResponder (by decide) rfl (by decide) (by decide) rfl rfl
  exact ⟨h.1, h.2.2.2.2.1⟩

/-! ## Claim C7 -/

/-- Move every responder of the registry to an arbitrary new location
(keyed by responder id), leaving all other fields unchanged. -/
def relocate (f : String → Location) (rs : Store Responder) :
    Store Responder :=
  rs.map (fun p => (p.1, { p.2 with location := f p.1 }))

theorem queryAvailableLimit1_relocate (f : String → Location)
    (rs : Store Responder) :
    queryAvailableLimit1 (relocate f rs) =
      (queryAvailableLimit1 rs).map
        (fun p => (p.1, { p.2 with location := f p.1 })) := by
  induction rs with
  | nil => simp [queryAvailableLimit1, relocate]
  | cons p rest ih =>
    by_cases h : p.2.status = "available"
    · simp [queryAvailableLimit1, relocate, h]
    · have hb : (p.2.status == "available") = false := by simp [h]
      simp only [relocate, List.map_cons, queryAvailableLimit1] at ih ⊢
      rw [List.find?_cons_of_neg _ (by simp [hb]),
        List.find?_cons_of_neg _ (by simp [hb])]
      exact ih

/-- Claim C7: `autoDispatch` selects the first responder of the registry
whose status equals `available` — when the registry splits as a prefix
with no available responder followed by an available one, it is exactly
that responder which gets dispatched — and the selection is a plain
limit-1 status query with no distance computation: relocating every
responder arbitrarily never changes which responder id the query
selects. -/
theorem c7_first_available (env : DispatchEnv) (s : WorldState)
    (incidentId : String) (inc : Incident)
    (l1 : Store Responder) (rid : String) (r : Responder)
    (l2 : Store Responder)
    (hff : env.faultFree)
    (hg : getDoc s.incidents incidentId = some inc)
    (hs1 : inc.status ≠ "dispatched") (hs2 : inc.status ≠ "resolved")
    (hresp : s.responders = l1 ++ (rid, r) :: l2)
    (hl1 : ∀ p ∈ l1, p.2.status ≠ "available")
    (hr : r.status = "available") :
    (autoDispatch env s (some incidentId)).outcome =
      DispatchOutcome.dispatched rid ∧
    (∀ f : String → Location,
      (queryAvailableLimit1 (relocate f s.responders)).map (fun p => p.1) =
        (queryAvailableLimit1 s.responders).map (fun p => p.1)) := by
  have hq : queryAvailableLimit1 s.responders = some (rid, r) := by
    rw [hresp]
    unfold queryAvailableLimit1
    rw [List.find?_append]
    have h1 : List.find? (fun p => p.2.status == "available") l1 = none := by
      apply List.find?_eq_none.mpr
      intro p hp
      simp [hl1 p hp]
    rw [h1, List.find?_cons_of_pos _ (by simp [hr])]
    rfl
  refine ⟨(autoDispatch_success env s incidentId inc rid r hff hg hs1 hs2
    hq).1, ?_⟩
  intro f
  rw [queryAvailableLimit1_relocate, hq]
  rfl

/-- Witness for C7: with a busy responder listed first and two available
ones behind it, the first available one (`R1`) is chosen, wherever the
responders are moved. -/
theorem c7_first_available_witness :
    (autoDispatch {}
        ⟨[("I1", pendingIncident)],
         [("R0", busyResponder), ("R1", tokenResponder),
          ("R2", noTokenResponder)]⟩ (some "I1")).outcome =
      DispatchOutcome.dispatched "R1" := by
  have h := c7_first_available {}
    ⟨[("I1", pendingIncident)],
     [("R0", busyResponder), ("R1", tokenResponder), ("R2", noTokenResponder)]⟩
    "I1" pendingIncident [("R0", busyResponder)] "R1" tokenResponder
    [("R2", noTokenResponder)] (by decide) rfl (by decide) (by decide) rfl
    (by decide) rfl
  exact h.1


/-- Claim C4: whenever a step of the read / select / notify / write
sequence throws — the incident read, the responder query, the FCM send (a
token being present), the `pending_dispatch` write, the `dispatched`
write, or the responder write — the incident ends in status
`dispatch_failed` with the thrown error's (non-empty) message recorded in
`dispatchErrorMessage`, and in no intermediate status; the catch block's
own write is the recovery mechanism and is assumed to succeed, and the
incident document must exist for it to succeed. -/
theorem c4_failure_recorded (env : DispatchEnv) (s : WorldState)
    (incidentId : String) (inc : Incident) (m : String)
    (hg : getDoc s.incidents incidentId = some inc)
    (hs1 : inc.status ≠ "dispatched") (hs2 : inc.status ≠ "resolved")
    (hcatch : env.failUpdateErr = none) (hm : m ≠ "")
    (hthrow :
      (env.getErr = some m) ∨
      (env.getErr = none ∧ env.queryErr = some m) ∨
      (env.getErr = none ∧ env.queryErr = none ∧
        queryAvailableLimit1 s.responders = none ∧
        env.pendingUpdateErr = some m) ∨
      (env.getErr = none ∧ env.queryErr = none ∧
        (∃ rid r token, queryAvailableLimit1 s.responders = some (rid, r) ∧
          r.fcmToken = some token) ∧
        env.sendErr = some m) ∨
      (env.getErr = none ∧ env.queryErr = none ∧
        (∃ rid r, queryAvailableLimit1 s.responders = some (rid, r) ∧
          (r.fcmToken = none ∨ env.sendErr = none)) ∧
        env.incUpdateErr = some m) ∨
      (env.getErr = none ∧ env.queryErr = none ∧
        (∃ rid r, queryAvailableLimit1 s.responders = some (rid, r) ∧
          (r.fcmToken = none ∨ env.sendErr = none)) ∧
        env.incUpdateErr = none ∧ env.respUpdateErr = some m)) :
    (autoDispatch env s (some incidentId)).outcome =
      DispatchOutcome.failed m ∧
    ∃ inc3,
      getDoc (autoDispatch env s (some incidentId)).state.incidents
          incidentId = some inc3 ∧
      inc3.status = "dispatch_failed" ∧
      inc3.dispatchErrorMessage = some m ∧
      inc3.dispatchErrorMessage ≠ some "" := by
  have hb1 : (inc.status == "dispatched") = false := by simp [hs1]
  have hb2 : (inc.status == "resolved") = false := by simp [hs2]
  rcases hthrow with hA | ⟨h1, hB⟩ | ⟨h1, h2, hqn, hC⟩ |
    ⟨h1, h2, ⟨rid, r, token, hq, htok⟩, hD⟩ |
    ⟨h1, h2, ⟨rid, r, hq, hnt⟩, hE⟩ |
    ⟨h1, h2, ⟨rid, r, hq, hnt⟩, hiu, hF⟩
  · simp only [autoDispatch, hA]
    have hspec := handleDispatchError_spec env s [] incidentId m inc hcatch hg
    exact ⟨hspec.1, _, hspec.2, rfl, rfl, by simp [hm]⟩
  · simp only [autoDispatch, h1, hg, hb1, hb2, Bool.or_self,
      Bool.false_eq_true, if_false, hB]
    have hspec := handleDispatchError_spec env s [] incidentId m inc hcatch hg
    exact ⟨hspec.1, _, hspec.2, rfl, rfl, by simp [hm]⟩
  · simp only [autoDispatch, h1, h2, hg, hb1, hb2, Bool.or_self,
      Bool.false_eq_true, if_false, hqn, hC]
    have hspec := handleDispatchError_spec env s [] incidentId m inc hcatch hg
    exact ⟨hspec.1, _, hspec.2, rfl, rfl, by simp [hm]⟩
  · simp only [autoDispatch, h1, h2, hg, hb1, hb2, Bool.or_self,
      Bool.false_eq_true, if_false, hq, htok, hD]
    have hspec := handleDispatchError_spec env s [] incidentId m inc hcatch hg
    exact ⟨hspec.1, _, hspec.2, rfl, rfl, by simp [hm]⟩
  · rcases hnt with htok | hsend
    · simp only [autoDispatch, h1, h2, hg, hb1, hb2, Bool.or_self,
        Bool.false_eq_true, if_false, hq, htok, finishDispatch, hE]
      have hspec :=
        handleDispatchError_spec env s [] incidentId m inc hcatch hg
      exact ⟨hspec.1, _, hspec.2, rfl, rfl, by simp [hm]⟩
    · cases htok : r.fcmToken with
      | some token =>
        simp only [autoDispatch, h1, h2, hg, hb1, hb2, Bool.or_self,
          Bool.false_eq_true, if_false, hq, htok, hsend, finishDispatch, hE]
        have hspec := handleDispatchError_spec env s
          [Effect.notify token rid incidentId] incidentId m inc hcatch hg
        exact ⟨hspec.1, _, hspec.2, rfl, rfl, by simp [hm]⟩
      | none =>
        simp only [autoDispatch, h1, h2, hg, hb1, hb2, Bool.or_self,
          Bool.false_eq_true, if_false, hq, htok, finishDispatch, hE]
        have hspec :=
          handleDispatchError_spec env s [] incidentId m inc hcatch hg
        exact ⟨hspec.1, _, hspec.2, rfl, rfl, by simp [hm]⟩
  · have hg1 := getDoc_setDoc_self s.incidents incidentId
      { inc with status := "dispatched", dispatchedTo := some rid,
                 routeDuration := some simulatedRouteDuration,
                 dispatchedAt := some () } inc hg
    rcases hnt with htok | hsend
    · simp only [autoDispatch, h1, h2, hg, hb1, hb2, Bool.or_self,
        Bool.false_eq_true, if_false, hq, htok, finishDispatch, hiu, hF]
      have hspec := handleDispatchError_spec env
        ⟨setDoc s.incidents incidentId
          { inc with status := "dispatched", dispatchedTo := some rid,
                     routeDuration := some simulatedRouteDuration,
                     dispatchedAt := some () }, s.responders⟩
        ([] ++ [Effect.incidentWrite incidentId]) incidentId m _ hcatch hg1
      exact ⟨hspec.1, _, hspec.2, rfl, rfl, by simp [hm]⟩
    · cases htok : r.fcmToken with
      | some token =>
        simp only [autoDispatch, h1, h2, hg, hb1, hb2, Bool.or_self,
          Bool.false_eq_true, if_false, hq, htok, hsend, finishDispatch,
          hiu, hF]
        have hspec := handleDispatchError_spec env
          ⟨setDoc s.incidents incidentId
            { inc with status := "dispatched", dispatchedTo := some rid,
                       routeDuration := some simulatedRouteDuration,
                       dispatchedAt := some () }, s.responders⟩
          ([Effect.notify token rid incidentId] ++
            [Effect.incidentWrite incidentId]) incidentId m _ hcatch hg1
        exact ⟨hspec.1, _, hspec.2, rfl, rfl, by simp [hm]⟩
      | none =>
        simp only [autoDispatch, h1, h2, hg, hb1, hb2, Bool.or_self,
          Bool.false_eq_true, if_false, hq, htok, finishDispatch, hiu, hF]
        have hspec := handleDispatchError_spec env
          ⟨setDoc s.incidents incidentId
            { inc with status := "dispatched", dispatchedTo := some rid,
                       routeDuration := some simulatedRouteDuration,
                       dispatchedAt := some () }, s.responders⟩
          ([] ++ [Effect.incidentWrite incidentId]) incidentId m _ hcatch hg1
        exact ⟨hspec.1, _, hspec.2, rfl, rfl, by simp [hm]⟩

/-- An environment where only the FCM send rejects. -/
def c4Env : DispatchEnv := { sendErr := some "FCM send failed" }

/-- Witness for C4: a failing FCM send on `w1` ends with the incident
marked `dispatch_failed` and the message recorded. -/
theorem c4_failure_recorded_witness :
    (autoDispatch c4Env w1 (some "I1")).outcome =
      DispatchOutcome.failed "FCM send failed" ∧
    ∃ inc3,
      getDoc (autoDispatch c4Env w1 (some "I1")).state.incidents "I1" =
        some inc3 ∧
      inc3.status = "dispatch_failed" ∧
      inc3.dispatchErrorMessage = some "FCM send failed" ∧
      inc3.dispatchErrorMessage ≠ some "" :=
  c4_failure_recorded c4Env w1 "I1" pendingIncident "FCM send failed" rfl
    (by decide) (by decide) rfl (by decide)
    (Or.inr (Or.inr (Or.inr (Or.inl
      ⟨rfl, rfl, ⟨"R1", tokenResponder, "fcm-tok-1", rfl, rfl⟩, rfl⟩))))

/-! ## Claim C5 -/

/-- An environment where the responder update rejects and the recovery
write of the catch block rejects as well. -/
def c5Env : DispatchEnv :=
  { respUpdateErr := some "responder update failed",
    failUpdateErr := some "incident store down" }

/-- Claim C5 counterexample: the incident and responder updates are two
separate writes, not a transaction.  When the responder update rejects
after the incident update committed, and the catch block's recovery write
rejects too, the run ends with the incident marked `dispatched` with
`dispatchedTo = R1` while responder `R1` is still `available` with no
`currentIncidentId` — exactly the inconsistent state the claim says
cannot occur. -/
theorem c5_counterexample :
    (getDoc (autoDispatch c5Env w1 (some "I1")).state.incidents "I1").map
        Incident.status = some "dispatched" ∧
    (getDoc (autoDispatch c5Env w1 (some "I1")).state.incidents "I1").map
        Incident.dispatchedTo = some (some "R1") ∧
    (getDoc (autoDispatch c5Env w1 (some "I1")).state.responders "R1").map
        Responder.status = some "available" ∧
    (getDoc (autoDispatch c5Env w1 (some "I1")).state.responders "R1").map
        Responder.currentIncidentId = some none := by
  decide

/-- Claim C5 (amended): the incident and responder updates are two
separate, non-transactional writes.  When both succeed the records agree;
when the responder write fails, the recovery write re-marks the incident
`dispatch_failed` (no longer `dispatched`) provided it succeeds; but when
the recovery write also fails, the incident stays `dispatched` with
`dispatchedTo` set while the responder registry is untouched. -/
theorem c5_nonatomic_dual_write (env : DispatchEnv) (s : WorldState)
    (incidentId : String) (inc : Incident) (rid : String) (r : Responder)
    (h1 : env.getErr = none) (h2 : env.queryErr = none)
    (h3 : env.sendErr = none) (h4 : env.incUpdateErr = none)
    (hg : getDoc s.incidents incidentId = some inc)
    (hs1 : inc.status ≠ "dispatched") (hs2 : inc.status ≠ "resolved")
    (hq : queryAvailableLimit1 s.responders = some (rid, r)) :
    (env.respUpdateErr = none →
      getDoc (autoDispatch env s (some incidentId)).state.incidents
          incidentId =
        some { inc with status := "dispatched", dispatchedTo := some rid,
                        routeDuration := some simulatedRouteDuration,
                        dispatchedAt := some () } ∧
      getDoc (autoDispatch env s (some incidentId)).state.responders rid =
        some { r with status := "en_route",
                      currentIncidentId := some incidentId }) ∧
    (∀ m, env.respUpdateErr = some m → env.failUpdateErr = none →
      (getDoc (autoDispatch env s (some incidentId)).state.incidents
          incidentId).map Incident.status = some "dispatch_failed" ∧
      (autoDispatch env s (some incidentId)).state.responders =
        s.responders) ∧
    (∀ m m2, env.respUpdateErr = some m → env.failUpdateErr = some m2 →
      (getDoc (autoDispatch env s (some incidentId)).state.incidents
          incidentId).map Incident.status = some "dispatched" ∧
      (getDoc (autoDispatch env s (some incidentId)).state.incidents
          incidentId).map Incident.dispatchedTo = some (some rid) ∧
      (autoDispatch env s (some incidentId)).state.responders =
        s.responders ∧
      (autoDispatch env s (some incidentId)).outcome =
        DispatchOutcome.uncaught m2) := by
  have hb1 : (inc.status == "dispatched") = false := by simp [hs1]
  have hb2 : (inc.status == "resolved") = false := by simp [hs2]
  have hrmem : (rid, r) ∈ s.responders := List.mem_of_find?_eq_some hq
  obtain ⟨r0, hr0⟩ := getDoc_isSome_of_mem s.responders rid r hrmem
  have hg1 := getDoc_setDoc_self s.incidents incidentId
    { inc with status := "dispatched", dispatchedTo := some rid,
               routeDuration := some simulatedRouteDuration,
               dispatchedAt := some () } inc hg
  refine ⟨?_, ?_, ?_⟩
  · intro h5
    cases ht : r.fcmToken <;>
      simp only [autoDispatch, h1, h2, h3, h4, h5, hg, hb1, hb2,
        Bool.or_self, Bool.false_eq_true, if_false, hq, ht,
        finishDispatch] <;>
      exact ⟨getDoc_setDoc_self s.incidents incidentId _ inc hg,
        getDoc_setDoc_self s.responders rid _ r0 hr0⟩
  · intro m h5 h6
    have hg2 := getDoc_setDoc_self
      (setDoc s.incidents incidentId
        { inc with status := "dispatched", dispatchedTo := some rid,
                   routeDuration := some simulatedRouteDuration,
                   dispatchedAt := some () })
      incidentId
      { inc with status := "dispatch_failed", dispatchedTo := some rid,
                 routeDuration := some simulatedRouteDuration,
                 dispatchedAt := some (), dispatchAttemptedAt := some (),
                 dispatchErrorMessage := some m }
      { inc with status := "dispatched", dispatchedTo := some rid,
                 routeDuration := some simulatedRouteDuration,
                 dispatchedAt := some () } hg1
    cases ht : r.fcmToken <;>
      simp [autoDispatch, h1, h2, h3, h4, h5, h6, hg, hb1, hb2,
        hq, ht, finishDispatch, handleDispatchError, hg1, hg2]
  · intro m m2 h5 h6
    cases ht : r.fcmToken <;>
      simp [autoDispatch, h1, h2, h3, h4, h5, h6, hg, hb1, hb2,
        hq, ht, finishDispatch, handleDispatchError, hg1]

/-- Witness for C5 (amended): on `w1` with a failing responder update but
a working recovery write, the incident ends `dispatch_failed` and the
responder registry is untouched. -/
theorem c5_nonatomic_dual_write_witness :
    (getDoc (autoDispatch { respUpdateErr := some "responder update failed" }
        w1 (some "I1")).state.incidents "I1").map Incident.status =
      some "dispatch_failed" ∧
    (autoDispatch { respUpdateErr := some "responder update failed" } w1
        (some "I1")).state.responders = w1.responders := by
  have h := c5_nonatomic_dual_write
    { respUpdateErr := some "responder update failed" } w1 "I1"
    pendingIncident "R1" tokenResponder rfl rfl rfl rfl rfl (by decide)
    (by decide) rfl
  exact h.2.1 "responder update failed" rfl rfl

/-! ## Claim C6 -/

/-- Claim C6 counterexample: an invocation on an incident that is already
`dispatched` performs zero incident-document writes, not exactly one. -/
theorem c6_counterexample :
    incidentWrites (autoDispatch {}
        ⟨[("I2", dispatchedIncident)], [("R1", tokenResponder)]⟩
        (some "I2")).effects = 0 := by
  decide

/-- Claim C6 (amended): every invocation performs at most one responder
document write and at most one outbound notification; it performs at most
one incident document write when all external calls succeed, and at most
two in general (the second being the catch block's `dispatch_failed`
recovery write after the `dispatched` write already committed). -/
theorem c6_effect_bounds (env : DispatchEnv) (s : WorldState)
    (oid : Option String) :
    responderWrites (autoDispatch env s oid).effects ≤ 1 ∧
    notifications (autoDispatch env s oid).effects ≤ 1 ∧
    incidentWrites (autoDispatch env s oid).effects ≤ 2 ∧
    (env.faultFree → incidentWrites (autoDispatch env s oid).effects ≤ 1) := by
  cases oid with
  | none =>
    simp [autoDispatch, incidentWrites, responderWrites, notifications]
  | some incidentId =>
    cases h1 : env.getErr with
    | some m =>
      simp only [autoDispatch, h1]
      rcases handleDispatchError_effects env s [] incidentId m with he | he <;>
        rw [he] <;>
        simp [incidentWrites, responderWrites, notifications,
          List.countP_cons, Effect.isIncidentWrite, Effect.isResponderWrite,
          Effect.isNotify]
    | none =>
      cases h2 : getDoc s.incidents incidentId with
      | none =>
        simp [autoDispatch, h1, h2, incidentWrites, responderWrites,
          notifications]
      | some inc =>
        by_cases h3 : (inc.status == "dispatched" ||
            inc.status == "resolved") = true
        · simp [autoDispatch, h1, h2, h3, incidentWrites, responderWrites,
            notifications]
        · have h3b : (inc.status == "dispatched" ||
              inc.status == "resolved") = false := by
            simpa using h3
          cases h4 : env.queryErr with
          | some m =>
            simp only [autoDispatch, h1, h2, h3b, Bool.false_eq_true,
              if_false, h4]
            rcases handleDispatchError_effects env s [] incidentId m with
              he | he <;>
              rw [he] <;>
              simp [incidentWrites, responderWrites, notifications,
                List.countP_cons, Effect.isIncidentWrite,
                Effect.isResponderWrite, Effect.isNotify]
          | none =>
            cases h5 : queryAvailableLimit1 s.responders with
            | none =>
              cases h6 : env.pendingUpdateErr with
              | some m =>
                simp only [autoDispatch, h1, h2, h3b, Bool.false_eq_true,
                  if_false, h4, h5, h6]
                rcases handleDispatchError_effects env s [] incidentId m with
                  he | he <;>
                  rw [he] <;>
                  simp [incidentWrites, responderWrites, notifications,
                    List.countP_cons, Effect.isIncidentWrite,
                    Effect.isResponderWrite, Effect.isNotify]
              | none =>
                simp [autoDispatch, h1, h2, h3b, h4, h5, h6, incidentWrites,
                  responderWrites, notifications, List.countP_cons,
                  Effect.isIncidentWrite, Effect.isResponderWrite,
                  Effect.isNotify]
            | some pr =>
              obtain ⟨rid, r⟩ := pr
              cases h7 : r.fcmToken with
              | some token =>
                cases h8 : env.sendErr with
                | some m =>
                  simp only [autoDispatch, h1, h2, h3b, Bool.false_eq_true,
                    if_false, h4, h5, h7, h8]
                  rcases handleDispatchError_effects env s [] incidentId m
                    with he | he <;>
                    rw [he] <;>
                    simp [incidentWrites, responderWrites, notifications,
                      List.countP_cons, Effect.isIncidentWrite,
                      Effect.isResponderWrite, Effect.isNotify]
                | none =>
                  cases h9 : env.incUpdateErr with
                  | some m =>
                    simp only [autoDispatch, h1, h2, h3b, Bool.false_eq_true,
                      if_false, h4, h5, h7, h8, finishDispatch, h9]
                    rcases handleDispatchError_effects env s
                      [Effect.notify token rid incidentId] incidentId m
                      with he | he <;>
                      rw [he] <;>
                      simp [incidentWrites, responderWrites, notifications,
                        List.countP_cons, List.countP_append,
                        Effect.isIncidentWrite, Effect.isResponderWrite,
                        Effect.isNotify]
                  | none =>
                    cases h10 : env.respUpdateErr with
                    | some m =>
                      simp only [autoDispatch, h1, h2, h3b,
                        Bool.false_eq_true, if_false, h4, h5, h7, h8,
                        finishDispatch, h9, h10]
                      rcases handleDispatchError_effects env _
                        ([Effect.notify token rid incidentId] ++
                          [Effect.incidentWrite incidentId]) incidentId m
                        with he | he <;>
                        rw [he] <;>
                        exact ⟨by simp [responderWrites, List.countP_cons,
                            List.countP_append, Effect.isResponderWrite],
                          by simp [notifications, List.countP_cons,
                            List.countP_append, Effect.isNotify],
                          by simp [incidentWrites, List.countP_cons,
                            List.countP_append, Effect.isIncidentWrite],
                          fun hff => absurd hff.2.2.2.2.2.1 (by simp [h10])⟩
                    | none =>
                      simp [autoDispatch, h1, h2, h3b, h4, h5, h7, h8,
                        finishDispatch, h9, h10, incidentWrites,
                        responderWrites, notifications, List.countP_cons,
                        List.countP_append, Effect.isIncidentWrite,
                        Effect.isResponderWrite, Effect.isNotify]
              | none =>
                cases h9 : env.incUpdateErr with
                | some m =>
                  simp only [autoDispatch, h1, h2, h3b, Bool.false_eq_true,
                    if_false, h4, h5, h7, finishDispatch, h9]
                  rcases handleDispatchError_effects env s [] incidentId m
                    with he | he <;>
                    rw [he] <;>
                    simp [incidentWrites, responderWrites, notifications,
                      List.countP_cons, List.countP_append,
                      Effect.isIncidentWrite, Effect.isResponderWrite,
                      Effect.isNotify]
                | none =>
                  cases h10 : env.respUpdateErr with
                  | some m =>
                    simp only [autoDispatch, h1, h2, h3b,
                      Bool.false_eq_true, if_false, h4, h5, h7,
                      finishDispatch, h9, h10]
                    rcases handleDispatchError_effects env _
                      ([] ++ [Effect.incidentWrite incidentId]) incidentId m
                      with he | he <;>
                      rw [he] <;>
                      exact ⟨by simp [responderWrites, List.countP_cons,
                          List.countP_append, Effect.isResponderWrite],
                        by simp [notifications, List.countP_cons,
                          List.countP_append, Effect.isNotify],
                        by simp [incidentWrites, List.countP_cons,
                          List.countP_append, Effect.isIncidentWrite],
                        fun hff => absurd hff.2.2.2.2.2.1 (by simp [h10])⟩
                  | none =>
                    simp [autoDispatch, h1, h2, h3b, h4, h5, h7,
                      finishDispatch, h9, h10, incidentWrites,
                      responderWrites, notifications, List.countP_cons,
                      List.countP_append, Effect.isIncidentWrite,
                      Effect.isResponderWrite, Effect.isNotify]

/-- Witness for C6 (amended): a fault-free successful dispatch on `w1`
performs exactly one incident write (so at most one). -/
theorem c6_effect_bounds_witness :
    responderWrites (autoDispatch {} w1 (some "I1")).effects ≤ 1 ∧
    notifications (autoDispatch {} w1 (some "I1")).effects ≤ 1 ∧
    incidentWrites (autoDispatch {} w1 (some "I1")).effects ≤ 1 :=
  ⟨(c6_effect_bounds {} w1 (some "I1")).1,
   (c6_effect_bounds {} w1 (some "I1")).2.1,
   (c6_effect_bounds {} w1 (some "I1")).2.2.2 (by decide)⟩

/-! ## Claim C9 -/

theorem finishDispatch_responders_cases (env : DispatchEnv) (s : WorldState)
    (incidentId : String) (incidentData : Incident) (responderId : String)
    (responderData : Responder) (notifyEffs : List Effect) :
    (finishDispatch env s incidentId incidentData responderId responderData
        notifyEffs).state.responders = s.responders ∨
    (finishDispatch env s incidentId incidentData responderId responderData
        notifyEffs).state.responders =
      setDoc s.responders responderId
        { responderData with status := "en_route",
                             currentIncidentId := some incidentId } := by
  cases h : env.incUpdateErr with
  | some m =>
    simp only [finishDispatch, h]
    exact Or.inl (handleDispatchError_responders env s notifyEffs incidentId m)
  | none =>
    cases h2 : env.respUpdateErr with
    | some m =>
      simp only [finishDispatch, h, h2]
      exact Or.inl (handleDispatchError_responders env _ _ incidentId m)
    | none =>
      simp only [finishDispatch, h, h2]
      exact Or.inr (by trivial)

theorem autoDispatch_responders_cases (env : DispatchEnv) (s : WorldState)
    (oid : Option String) :
    (autoDispatch env s oid).state.responders = s.responders ∨
    ∃ rid resp2, resp2.status = "en_route" ∧
      (autoDispatch env s oid).state.responders =
        setDoc s.responders rid resp2 := by
  cases oid with
  | none => exact Or.inl rfl
  | some incidentId =>
    cases h1 : env.getErr with
    | some m =>
      simp only [autoDispatch, h1]
      exact Or.inl (handleDispatchError_responders env s [] incidentId m)
    | none =>
      cases h2 : getDoc s.incidents incidentId with
      | none => exact Or.inl (by simp [autoDispatch, h1, h2])
      | some inc =>
        by_cases h3 : (inc.status == "dispatched" ||
            inc.status == "resolved") = true
        · exact Or.inl (by simp [autoDispatch, h1, h2, h3])
        · have h3b : (inc.status == "dispatched" ||
              inc.status == "resolved") = false := by simpa using h3
          cases h4 : env.queryErr with
          | some m =>
            simp only [autoDispatch, h1, h2, h3b, Bool.false_eq_true,
              if_false, h4]
            exact Or.inl (handleDispatchError_responders env s [] incidentId m)
          | none =>
            cases h5 : queryAvailableLimit1 s.responders with
            | none =>
              cases h6 : env.pendingUpdateErr with
              | some m =>
                simp only [autoDispatch, h1, h2, h3b, Bool.false_eq_true,
                  if_false, h4, h5, h6]
                exact Or.inl
                  (handleDispatchError_responders env s [] incidentId m)
              | none =>
                exact Or.inl (by simp [autoDispatch, h1, h2, h3b, h4, h5, h6])
            | some pr =>
              obtain ⟨rid, r⟩ := pr
              have hfin := fun notifyEffs =>
                finishDispatch_responders_cases env s incidentId inc rid r
                  notifyEffs
              cases h7 : r.fcmToken with
              | some token =>
                cases h8 : env.sendErr with
                | some m =>
                  simp only [autoDispatch, h1, h2, h3b, Bool.false_eq_true,
                    if_false, h4, h5, h7, h8]
                  exact Or.inl
                    (handleDispatchError_responders env s [] incidentId m)
                | none =>
                  simp only [autoDispatch, h1, h2, h3b, Bool.false_eq_true,
                    if_false, h4, h5, h7, h8]
                  rcases hfin [Effect.notify token rid incidentId] with
                    hcase | hcase
                  · exact Or.inl hcase
                  · exact Or.inr ⟨rid, _, rfl, hcase⟩
              | none =>
                simp only [autoDispatch, h1, h2, h3b, Bool.false_eq_true,
                  if_false, h4, h5, h7]
                rcases hfin [] with hcase | hcase
                · exact Or.inl hcase
                · exact Or.inr ⟨rid, _, rfl, hcase⟩

/-- Claim C9: `autoDispatch` preserves the responder-registry invariant
that a responder with status `available` has no `currentIncidentId`:
whatever the environment and the trigger payload, if every responder
record satisfies the invariant before the invocation, every responder
record still satisfies it afterwards (the only responder write sets
`en_route` together with `currentIncidentId`). -/
theorem c9_invariant_preserved (env : DispatchEnv) (s : WorldState)
    (oid : Option String)
    (hinv : ∀ p ∈ s.responders, responderInvariant p.2) :
    ∀ p ∈ (autoDispatch env s oid).state.responders,
      responderInvariant p.2 := by
  intro p hp
  rcases autoDispatch_responders_cases env s oid with hcase | ⟨rid, resp2, hst, hcase⟩
  · rw [hcase] at hp
    exact hinv p hp
  · rw [hcase] at hp
    rcases mem_setDoc s.responders rid resp2 p hp with hpe | hpm
    · intro hav
      rw [hpe] at hav
      simp only at hav
      rw [hst] at hav
      exact absurd hav (by decide)
    · exact hinv p hpm

/-- Witness for C9: on `w1` (whose only responder is `available` with no
assignment) the invariant still holds for every responder after a
successful dispatch. -/
theorem c9_invariant_preserved_witness :
    (∀ p ∈ w1.responders, responderInvariant p.2) ∧
    ∀ p ∈ (autoDispatch {} w1 (some "I1")).state.responders,
      responderInvariant p.2 :=
  ⟨by decide, c9_invariant_preserved {} w1 (some "I1") (by decide)⟩

/-! ## Claim C8 -/

/-- Claim C8: whenever an exception occurs during `onNewIncident` — the
Gemini fetch / response decoding throws (network failure, malformed
response body), or the result update throws — the incident's status
becomes `analysis_failed` with the error message recorded in
`errorMessage`; the catch block's own write is the recovery mechanism and
is assumed to succeed, the incident document existing. -/
theorem c8_analysis_failure (env : AnalysisEnv) (incs : Store Incident)
    (msg : IncidentMessage) (inc : Incident) (m : String)
    (hg : getDoc incs msg.incidentId = some inc)
    (hcatch : env.failUpdateErr = none)
    (hthrow : env.fetchErr = some m ∨
      (env.fetchErr = none ∧ env.updateErr = some m)) :
    (onNewIncident env incs msg).outcome = AnalysisOutcome.failed m ∧
    getDoc (onNewIncident env incs msg).incidents msg.incidentId =
      some { inc with status := "analysis_failed",
                      errorMessage := some m,
                      analyzedAt := some () } := by
  rcases hthrow with h | ⟨h1, h2⟩
  · simp only [onNewIncident, h, handleAnalysisError, hcatch, hg]
    exact ⟨by trivial, getDoc_setDoc_self incs msg.incidentId _ inc hg⟩
  · simp only [onNewIncident, h1, h2, handleAnalysisError, hcatch, hg]
    exact ⟨by trivial, getDoc_setDoc_self incs msg.incidentId _ inc hg⟩

/-- The Pub/Sub payload used by the C8 witness. -/
def msg1 : IncidentMessage :=
  { incidentId := "I1", videoUrl := "gs://bucket/clip1",
    anomalyType := "fire", deviceId := "D1", location := ⟨12, 77⟩ }

/-- Witness for C8: a failing Gemini fetch marks the incident
`analysis_failed` with the message recorded. -/
theorem c8_analysis_failure_witness :
    (onNewIncident { fetchErr := some "network unreachable" }
        [("I1", pendingIncident)] msg1).outcome =
      AnalysisOutcome.failed "network unreachable" ∧
    getDoc (onNewIncident { fetchErr := some "network unreachable" }
        [("I1", pendingIncident)] msg1).incidents "I1" =
      some { pendingIncident with
               status := "analysis_failed",
               errorMessage := some "network unreachable",
               analyzedAt := some () } :=
  c8_analysis_failure { fetchErr := some "network unreachable" }
    [("I1", pendingIncident)] msg1 pendingIncident "network unreachable"
    rfl rfl (Or.inl rfl)
